import Mathlib

/- Verification of the rotary-encoder quadrature decoder of the rotencPi
   library (src/rotencPi/rotencPi.h): the 16-entry direction lookup table,
   the half-step and full-step transition-table state machines, and the
   encoder session API. The tables and declarations come from rotencPi.h;
   the function bodies (rotencPi.c) are not part of the provided sources,
   so their behaviour is modelled from the specification where needed. -/

namespace RotencPi

/-- Number of entries of the simple state table (SIMPLE_TABLE_COLS in
rotencPi.h). -/
def SIMPLE_TABLE_COLS : Nat := 16

/-- Simple state table, from rotencPi.h:
SIMPLE_TABLE is the array literal 0,-1,1,0,1,0,0,-1,-1,0,0,1,0,1,-1,0
indexed by the 4-bit nibble abAB of previous and current readings. -/
def SIMPLE_TABLE : List Int := [0, -1, 1, 0, 1, 0, 0, -1, -1, 0, 0, 1, 0, 1, -1, 0]

/-- Number of rows of the half step transition table (HALF_TABLE_ROWS in
rotencPi.h). -/
def HALF_TABLE_ROWS : Nat := 6

/-- Number of rows of the full step transition table (FULL_TABLE_ROWS in
rotencPi.h). -/
def FULL_TABLE_ROWS : Nat := 7

/-- Half step transition table, from rotencPi.h (HALF_TABLE), rows are
states, columns are indexed by the 2-bit current AB reading. -/
def HALF_TABLE : List (List Nat) :=
  [[0x03, 0x02, 0x01, 0x00],
   [0x23, 0x00, 0x01, 0x00],
   [0x13, 0x02, 0x00, 0x00],
   [0x03, 0x05, 0x04, 0x00],
   [0x03, 0x03, 0x04, 0x10],
   [0x03, 0x05, 0x03, 0x20]]

/-- Full step transition table, from rotencPi.h (FULL_TABLE). -/
def FULL_TABLE : List (List Nat) :=
  [[0x00, 0x02, 0x04, 0x00],
   [0x03, 0x00, 0x01, 0x10],
   [0x03, 0x02, 0x00, 0x00],
   [0x03, 0x02, 0x01, 0x00],
   [0x06, 0x00, 0x04, 0x00],
   [0x06, 0x05, 0x00, 0x20],
   [0x06, 0x05, 0x04, 0x00]]

/-- Cell access table[row][col] of a two-dimensional table, 0 outside the
table (a C array access out of range is modelled as the absent value 0,
which the range invariant below shows is never relied upon from state 0). -/
def tableGet (t : List (List Nat)) (row col : Nat) : Nat :=
  (t.getD row []).getD col 0

/-- Decoder modes of rotencPi.h: enum decode_t. -/
inductive decode_t
  | SIMPLE_1
  | SIMPLE_2
  | SIMPLE_4
  | HALF
  | FULL
deriving DecidableEq

/-- Modelled from the spec: the bodies of setDirectionHalf and
setDirectionFull (rotencPi.c) are not under the provided sources, only the
tables and declarations are. Spec 4.3: state := table[state & 0x0F][AB];
if the high nibble of the new state is 0x1 the direction is +1 and the
state is reduced to its low nibble; if the high nibble is 0x2 the
direction is -1 and the state is reduced likewise; otherwise the
direction is 0 and the state is used as-is for the next lookup. Returns
the pair of the next state and the emitted direction. -/
def stepTable (t : List (List Nat)) (state : Nat) (ab : Fin 4) : Nat × Int :=
  let s := tableGet t (state &&& 0x0F) ab.val
  if s >>> 4 = 1 then (s &&& 0x0F, 1)
  else if s >>> 4 = 2 then (s &&& 0x0F, -1)
  else (s, 0)

/-- Modelled from the spec: iterated runs of the half-step or full-step
decoder (their interrupt-handler bodies are not under the provided
sources). Runs the state machine of table t from a state over a list of
2-bit AB readings; returns the final state and the list of directions
emitted at each transition. -/
def runTable (t : List (List Nat)) : Nat → List (Fin 4) → Nat × List Int
  | s, [] => (s, [])
  | s, ab :: rest =>
      ((runTable t (stepTable t s ab).1 rest).1,
       (stepTable t s ab).2 :: (runTable t (stepTable t s ab).1 rest).2)

/-- Number of non-zero directions in an emission list. -/
def nonzeroCount (l : List Int) : Nat :=
  (l.filter (fun d => d != 0)).length

/-- Modelled from the spec: the body of setDirectionSimple (rotencPi.c)
is not under the provided sources. Spec 4.1: on a rising edge of A the
handler reads the current level of B; if B is high the direction is -1,
if B is low the direction is +1. -/
def setDirectionSimple (b : Bool) : Int :=
  if b then -1 else 1

/-- Modelled from the spec: the SharedResult record (spec section 3); in
rotencPi.h it exists only as the volatile globals encoderDirection and
buttonState, with no accessor body under the provided sources. -/
structure SharedResult where
  direction : Int
  buttonLevel : Bool
deriving DecidableEq

/-- Modelled from the spec: readDirection (spec 4.6) has no definition
under the provided sources (consumers read the encoderDirection global
directly). Reads and resets SharedResult.direction to 0 and returns the
value read together with the updated state. -/
def readDirection (s : SharedResult) : Int × SharedResult :=
  (s.direction, { s with direction := 0 })

/-- Errors of session initialisation, from the spec taxonomy (section 7). -/
inductive EncoderError
  | configurationError
  | registrationError
deriving DecidableEq

/-- Number of recognised decode modes: the five values of enum decode_t in
rotencPi.h. -/
def numDecodeModes : Nat := 5

/-- Modelled from the spec: the body of encoderInit (rotencPi.c) is not
under the provided sources, only its declaration is. Spec 4.6 validates
distinct, non-sentinel pin identifiers, and spec 7 makes identical or
invalid pin assignment and an unknown mode the ConfigurationError
causes. Pins are uint8_t in rotencPi.h with 0xFF the no-GPIO sentinel
(rotencPi.h: Send 0xFF for button if no GPIO present), so an A or B
identifier is invalid when it is 0xFF or beyond the uint8_t range,
i.e. when 0xFF ≤ pin. A mode code is unrecognised when it is not a
value of enum decode_t, i.e. not below numDecodeModes. Initialisation
fails with a ConfigurationError in those cases, fails with a
RegistrationError when handler registration fails, and succeeds
otherwise. The registered flag abstracts the Sample Source accepting
the handler registrations. -/
def encoderInit (gpioA gpioB : Nat) (mode : Nat) (registered : Bool) :
    Except EncoderError Unit :=
  if gpioA = gpioB ∨ 0xFF ≤ gpioA ∨ 0xFF ≤ gpioB ∨ numDecodeModes ≤ mode then
    Except.error EncoderError.configurationError
  else if registered then Except.ok ()
  else Except.error EncoderError.registrationError

/-- Masking twice with 15 is the same as masking once. -/
lemma and15_idem (s : Nat) : (s &&& 15) &&& 15 = s &&& 15 := by
  rw [Nat.and_assoc, show (15 : Nat) &&& 15 = 15 by decide]

/-- A step of the table machine depends on the state only through its low
nibble. -/
lemma stepTable_mask (t : List (List Nat)) (s : Nat) (ab : Fin 4) :
    stepTable t s ab = stepTable t (s &&& 15) ab := by
  simp [stepTable, and15_idem]

/-- Every half-table step lands in a state of low nibble below 6, checked
over all 16 possible low nibbles. -/
lemma stepHalf_bound_fin : ∀ (m : Fin 16) (ab : Fin 4),
    (stepTable HALF_TABLE m.val ab).1 &&& 15 < 6 := by decide

/-- Every full-table step lands in a state of low nibble below 7, checked
over all 16 possible low nibbles. -/
lemma stepFull_bound_fin : ∀ (m : Fin 16) (ab : Fin 4),
    (stepTable FULL_TABLE m.val ab).1 &&& 15 < 7 := by decide

/-- Every half-table step from any state lands in a state of low nibble
below 6. -/
lemma stepHalf_bound (s : Nat) (ab : Fin 4) :
    (stepTable HALF_TABLE s ab).1 &&& 15 < 6 := by
  have hm : s &&& 15 < 16 := Nat.lt_succ_of_le (Nat.and_le_right)
  rw [stepTable_mask]
  exact stepHalf_bound_fin ⟨s &&& 15, hm⟩ ab

/-- Every full-table step from any state lands in a state of low nibble
below 7. -/
lemma stepFull_bound (s : Nat) (ab : Fin 4) :
    (stepTable FULL_TABLE s ab).1 &&& 15 < 7 := by
  have hm : s &&& 15 < 16 := Nat.lt_succ_of_le (Nat.and_le_right)
  rw [stepTable_mask]
  exact stepFull_bound_fin ⟨s &&& 15, hm⟩ ab

/-- A step-preserved low-nibble bound is preserved by whole runs. -/
lemma runTable_inv (t : List (List Nat)) (n : Nat)
    (hstep : ∀ (s : Nat) (ab : Fin 4), (stepTable t s ab).1 &&& 15 < n) :
    ∀ (l : List (Fin 4)) (s : Nat), s &&& 15 < n →
      (runTable t s l).1 &&& 15 < n := by
  intro l
  induction l with
  | nil =>
      intro s hs
      simpa [runTable] using hs
  | cons ab rest ih =>
      intro s hs
      simpa [runTable] using ih (stepTable t s ab).1 (hstep s ab)

/-- C1: for every 4-bit index the direction in SIMPLE_TABLE equals the
literal reference table 0,-1,1,0,1,0,0,-1,-1,0,0,1,0,1,-1,0, and the
table has exactly SIMPLE_TABLE_COLS entries. -/
theorem simpleTable_matches_literal :
    SIMPLE_TABLE.length = SIMPLE_TABLE_COLS ∧
    ∀ idx : Fin 16, SIMPLE_TABLE.getD idx.val 0 =
      [0, -1, 1, 0, 1, 0, 0, -1, -1, 0, 0, 1, 0, 1, -1, 0].getD idx.val 0 := by
  constructor
  · decide
  · decide

/-- Half-step transition table as written in spec section 4.3, for the
bit-exactness comparison of C2. -/
def specHalfTable : List (List Nat) :=
  [[0x03, 0x02, 0x01, 0x00],
   [0x23, 0x00, 0x01, 0x00],
   [0x13, 0x02, 0x00, 0x00],
   [0x03, 0x05, 0x04, 0x00],
   [0x03, 0x03, 0x04, 0x10],
   [0x03, 0x05, 0x03, 0x20]]

/-- Full-step transition table as written in spec section 4.4, for the
bit-exactness comparison of C2. -/
def specFullTable : List (List Nat) :=
  [[0x00, 0x02, 0x04, 0x00],
   [0x03, 0x00, 0x01, 0x10],
   [0x03, 0x02, 0x00, 0x00],
   [0x03, 0x02, 0x01, 0x00],
   [0x06, 0x00, 0x04, 0x00],
   [0x06, 0x05, 0x00, 0x20],
   [0x06, 0x05, 0x04, 0x00]]

/-- C2: the half-step and full-step tables of the code are bit-exact
reproductions of the 6 by 4 and 7 by 4 tables of spec sections 4.3 and
4.4: same dimensions and entry-for-entry equal. -/
theorem transition_tables_bit_exact :
    (HALF_TABLE.length = 6 ∧ FULL_TABLE.length = 7 ∧
     (∀ r : Fin 6, (HALF_TABLE.getD r.val []).length = 4) ∧
     (∀ r : Fin 7, (FULL_TABLE.getD r.val []).length = 4)) ∧
    (∀ r : Fin 6, ∀ c : Fin 4,
       tableGet HALF_TABLE r.val c.val = tableGet specHalfTable r.val c.val) ∧
    (∀ r : Fin 7, ∀ c : Fin 4,
       tableGet FULL_TABLE r.val c.val = tableGet specFullTable r.val c.val) := by
  refine ⟨⟨by decide, by decide, by decide, by decide⟩, by decide, by decide⟩

/-- C3 counterexample: the half-step run from state 0 over the AB column
sequence 01,11,10,00 does not emit exactly one +1 (it emits none: its
single emission is a -1), refuting the claim as stated. -/
theorem halfStep_clean_run_not_plus_one :
    ¬((runTable HALF_TABLE 0 [1, 3, 2, 0]).2.count 1 = 1 ∧
      (runTable HALF_TABLE 0 [1, 3, 2, 0]).1 &&& 15 ≤ 5) := by
  decide

/-- C3 amended: the half-step run from state 0 over AB = 01,11,10,00
emits exactly one -1 and no +1 (the per-transition emissions are
0,0,0,-1), and finishes in a state whose low nibble is at most 0x05. -/
theorem halfStep_clean_run_emits_minus_one :
    (runTable HALF_TABLE 0 [1, 3, 2, 0]).2 = [0, 0, 0, -1] ∧
    (runTable HALF_TABLE 0 [1, 3, 2, 0]).2.count (-1) = 1 ∧
    (runTable HALF_TABLE 0 [1, 3, 2, 0]).2.count 1 = 0 ∧
    (runTable HALF_TABLE 0 [1, 3, 2, 0]).1 &&& 15 ≤ 5 := by
  decide

/-- C4 counterexample: the full-step run from state 0 over the AB column
sequence 10,11,01,00 does not emit exactly one -1: it emits no non-zero
direction at all, refuting the claim as stated. -/
theorem fullStep_given_run_no_minus_one :
    ¬((runTable FULL_TABLE 0 [2, 3, 1, 0]).2.count (-1) = 1 ∧
      (runTable FULL_TABLE 0 [2, 3, 1, 0]).2.count 1 = 0) := by
  decide

/-- C4 amended: the full-step run from state 0 over AB = 10,11,10,00
as given emits no direction at any transition; the counter-clockwise
full-step sequence AB = 10,00,01,11 is the one that emits exactly one -1
in total and no other non-zero direction at any intermediate
transition. -/
theorem fullStep_runs_characterised :
    (runTable FULL_TABLE 0 [2, 3, 1, 0]).2 = [0, 0, 0, 0] ∧
    (runTable FULL_TABLE 0 [2, 0, 1, 3]).2 = [0, 0, 0, -1] ∧
    (runTable FULL_TABLE 0 [2, 0, 1, 3]).2.count (-1) = 1 ∧
    (runTable FULL_TABLE 0 [2, 0, 1, 3]).2.count 1 = 0 := by
  decide

/-- C5 counterexample: starting from state 0, the number of non-zero
directions the half-step machine emits over the bounce-injected sequence
AB = 01,00,01,11,10,00 (three: +1,-1,-1) is not equal to the number
emitted over the clean sequence AB = 01,11,10,00 (one), refuting the
claim as stated. -/
theorem halfStep_bounce_count_differs :
    ¬(nonzeroCount (runTable HALF_TABLE 0 [1, 0, 1, 3, 2, 0]).2 =
      nonzeroCount (runTable HALF_TABLE 0 [1, 3, 2, 0]).2) := by
  decide

/-- C5 amended: the bounce-injected sequence emits three non-zero
directions where the clean sequence emits one, but the net sum of the
emitted directions is unchanged by the injected bounce: both runs sum
to -1. -/
theorem halfStep_bounce_sum_preserved :
    (runTable HALF_TABLE 0 [1, 0, 1, 3, 2, 0]).2.sum =
      (runTable HALF_TABLE 0 [1, 3, 2, 0]).2.sum ∧
    nonzeroCount (runTable HALF_TABLE 0 [1, 0, 1, 3, 2, 0]).2 = 3 ∧
    nonzeroCount (runTable HALF_TABLE 0 [1, 3, 2, 0]).2 = 1 := by
  decide

/-- C6: in SingleEdge mode, on a rising edge of pin A the handler reads
the level of B and sets direction -1 when B is high and +1 when B is
low. -/
theorem setDirectionSimple_sign :
    setDirectionSimple true = -1 ∧ setDirectionSimple false = 1 := by
  decide

/-- C7: over every finite sequence of 2-bit AB inputs starting from state
0, the low nibble of the state stays strictly below HALF_TABLE_ROWS in
half-step mode and strictly below FULL_TABLE_ROWS in full-step mode, so
every table lookup row index is within the table. -/
theorem state_low_nibble_in_range (l : List (Fin 4)) :
    (runTable HALF_TABLE 0 l).1 &&& 15 < HALF_TABLE_ROWS ∧
    (runTable FULL_TABLE 0 l).1 &&& 15 < FULL_TABLE_ROWS := by
  constructor
  · exact runTable_inv HALF_TABLE 6 stepHalf_bound l 0 (by decide)
  · exact runTable_inv FULL_TABLE 7 stepFull_bound l 0 (by decide)

/-- C8: readDirection returns the stored direction and resets the stored
direction to 0, so with no intervening handler execution a first call
returns the stored value and a second call returns 0. -/
theorem readDirection_at_most_once (s : SharedResult) :
    (readDirection s).1 = s.direction ∧
    (readDirection (readDirection s).2).1 = 0 :=
  ⟨rfl, rfl⟩

/-- C9 counterexample: with pin A the sentinel 0xFF, pin B = 3 distinct
from it and the recognised mode 0, initialisation reports a
ConfigurationError even though the pins do not collide and the mode is
recognised, so the claim's success direction (succeeds whenever the pins
do not collide and the mode is recognised) fails at this input. -/
theorem encoderInit_sentinel_pin_cx :
    ¬(¬((0xFF : Nat) = 3 ∨ numDecodeModes ≤ 0) →
        encoderInit 0xFF 3 0 true = Except.ok ()) := by
  intro h
  exact Except.noConfusion (h (by decide))

/-- C9 amended: with handler registration succeeding, encoderInit reports
a ConfigurationError exactly when the A and B pin identifiers collide,
either of them is sentinel or invalid (0xFF or beyond the uint8_t
range), or the decode mode code is unrecognised, and succeeds
otherwise. -/
theorem encoderInit_config_error_iff (a b m : Nat) :
    (encoderInit a b m true = Except.error EncoderError.configurationError ↔
      (a = b ∨ 0xFF ≤ a ∨ 0xFF ≤ b ∨ numDecodeModes ≤ m)) ∧
    (¬(a = b ∨ 0xFF ≤ a ∨ 0xFF ≤ b ∨ numDecodeModes ≤ m) →
      encoderInit a b m true = Except.ok ()) := by
  by_cases h : a = b ∨ 0xFF ≤ a ∨ 0xFF ≤ b ∨ numDecodeModes ≤ m
  · simp [encoderInit, h]
  · simp [encoderInit, h]

/-- Witness for C9: colliding pins 2,2 yield a ConfigurationError, the
sentinel pin A = 0xFF yields a ConfigurationError, and the valid
configuration with pins 2,3 and mode 0 succeeds. -/
theorem encoderInit_config_error_iff_witness :
    encoderInit 2 2 0 true = Except.error EncoderError.configurationError ∧
    encoderInit 0xFF 3 0 true = Except.error EncoderError.configurationError ∧
    encoderInit 2 3 0 true = Except.ok () :=
  ⟨(encoderInit_config_error_iff 2 2 0).1.mpr (Or.inl rfl),
   (encoderInit_config_error_iff 0xFF 3 0).1.mpr (by decide),
   (encoderInit_config_error_iff 2 3 0).2 (by decide)⟩

/-- C10: swapping the previous-reading bit pair with the current-reading
bit pair of the 4-bit index negates the looked-up direction: for every
idx, SIMPLE_TABLE at ((idx and 3) shifted left 2) or (idx shifted right
2) is the negation of SIMPLE_TABLE at idx. -/
theorem simpleTable_time_reversal_antisymm :
    ∀ idx : Fin 16,
      SIMPLE_TABLE.getD (((idx.val &&& 3) <<< 2) ||| (idx.val >>> 2)) 0 =
        -(SIMPLE_TABLE.getD idx.val 0) := by
  decide

end RotencPi
